import Mathlib

/-!
Verification of the wa-load-go call-signaling gateway (src/main.go).

The development shallowly embeds the session-lifecycle core of the program:

* the loosely typed `connection` / `session` payload maps and the SDP
  extraction performed by `processAction`;
* the per-session concurrency state (registry entry `callIDToOffer`,
  decision channel `actionChannels`, single-shot decision-waiter goroutine,
  45-second reaper `autoRemovePeerConnection`, 45-second context) as an
  explicit transition system `step` over `SessState`, with `Reachable`
  describing every interleaving of dispatcher requests and internal events;
* the pure payload construction `createCallbackPayload` and the registry
  effects of `generateSDPOffer` / `generateSDPAnswer`, parameterised by the
  outcomes of the external WebRTC transport adapter;
* the media pacer's frame-duration arithmetic from `streamAudio`, with the
  Go `uint64` granule subtraction made explicit modulo 2^64.
-/

namespace WaLoad

/-- A fragment of dynamic JSON values, enough to mirror Go's
`map[string]any` type assertions (`.(map[string]any)`, `.(string)`)
used by `processAction`. -/
inductive JVal where
  | str : String → JVal
  | obj : List (String × JVal) → JVal
  | arr : List JVal → JVal
  | other : JVal

/-- Lookup in a Go-style string-keyed object (first binding wins). -/
def jlookup : List (String × JVal) → String → Option JVal
  | [], _ => none
  | (k, v) :: rest, key => if k = key then some v else jlookup rest key

/-- Mirrors `action.Connection["webrtc"].(map[string]any)` followed by
`webrtcData["sdp"].(string)` in `processAction`: the nested payload shape. -/
def connectionWebrtcSdp (conn : List (String × JVal)) : Option String :=
  match jlookup conn "webrtc" with
  | some (JVal.obj m) =>
      match jlookup m "sdp" with
      | some (JVal.str s) => some s
      | _ => none
  | _ => none

/-- Mirrors `action.Session["sdp"].(string)` in `processAction`: the flat payload
shape. -/
def sessionSdp (sess : List (String × JVal)) : Option String :=
  match jlookup sess "sdp" with
  | some (JVal.str s) => some s
  | _ => none

/-- The decision request body (`ActionRequest` in the source). -/
structure ActionRequest where
  callID : String
  action : String
  connection : List (String × JVal)
  session : List (String × JVal)

/-- The SDP extraction for an `accept` decision in `processAction`:
the nested `connection.webrtc.sdp` shape is tried first, then the flat
`session.sdp` shape. -/
def extractAcceptSDP (req : ActionRequest) : Option String :=
  match connectionWebrtcSdp req.connection with
  | some s => some s
  | none => sessionSdp req.session

/-- Status of the single-shot decision-waiter goroutine spawned at the end
of `generateSDPOffer`: its one `select` either consumes a decision or times
out, after which the goroutine is `done` and is never reactivated. -/
inductive WaiterStatus where
  | waiting
  | done
deriving DecidableEq, Repr

/-- The concurrency-relevant state of one Offer-flow session, as set up by
`generateSDPOffer` for a fixed call id.

* `inRegistry`: the call id maps to this session's peer connection in
  `callIDToOffer`;
* `inChannels`: the call id maps to the decision channel in
  `actionChannels` (deleted by the waiter goroutine's `defer`);
* `chanBuf`: content of the capacity-one decision channel (the accepted
  remote SDP string, if a decision is buffered);
* `waiter`: status of the decision-waiter goroutine;
* `remoteApplyCalls`: number of `pc.SetRemoteDescription` calls made for
  this session by the waiter;
* `pacersStarted`: number of `streamAudio` pacers started for this session;
* `transportClosed`: whether `pc.Close()` has been called on the
  registered peer connection after registration;
* `reaperFired`: whether the `autoRemovePeerConnection` timer has fired;
* `ctxDone`: whether the 45-second context deadline has expired;
* `removals`: ghost counter of deletions of this call id from
  `callIDToOffer`. -/
structure SessState where
  inRegistry : Bool
  inChannels : Bool
  chanBuf : Option String
  waiter : WaiterStatus
  remoteApplyCalls : Nat
  pacersStarted : Nat
  transportClosed : Bool
  reaperFired : Bool
  ctxDone : Bool
  removals : Nat
deriving DecidableEq, Repr

/-- The three response classes `processAction` can produce for this
session: the soft not-found JSON, the 400 "SDP data missing" validation
failure, and the "Action processed successfully" JSON. -/
inductive Response where
  | softNoSession
  | validationError
  | success
deriving DecidableEq, Repr

/-- The `validCloseActions` set of `processAction`. -/
def validCloseActions : List String := ["terminate", "reject", "hangup"]

/-- One `processAction` call against this session, with the
lookup/close/delete treated at the granularity the spec fixes
(registry-removal-plus-close as one logical step).  Returns `none` when the
handler never returns: the only such case is the send on the capacity-one
decision channel when the channel already holds an undrained decision and
the single-shot waiter will never receive again. -/
def processAction (s : SessState) (req : ActionRequest) :
    Option (SessState × Response) :=
  if s.inRegistry = false then
    some (s, Response.softNoSession)
  else if req.action ∈ validCloseActions then
    some ({ s with transportClosed := true
                   inRegistry := false
                   removals := s.removals + 1 }, Response.success)
  else if req.action = "accept" then
    match extractAcceptSDP req with
    | none => some (s, Response.validationError)
    | some sdp =>
        if s.inChannels then
          match s.chanBuf with
          | none => some ({ s with chanBuf := some sdp }, Response.success)
          | some _ => none
        else
          some (s, Response.success)
  else
    some (s, Response.success)

/-- Events that can interleave against a live Offer-flow session. -/
inductive Ev where
  /-- an external `processAction` request for this call id -/
  | request : ActionRequest → Ev
  /-- the waiter's `select` receives the buffered decision; the `Bool`
  records whether `pc.SetRemoteDescription` succeeds -/
  | consume : Bool → Ev
  /-- the 45-second context deadline expires -/
  | ctxExpire : Ev
  /-- the waiter's `select` takes the `ctx.Done()` branch -/
  | waiterTimeout : Ev
  /-- the waiter goroutine returns, running `defer actionChannels.Delete` -/
  | waiterExit : Ev
  /-- the `autoRemovePeerConnection` timer fires -/
  | reaperFire : Ev

/-- Small-step semantics of the session: `none` means the event is not
enabled (or, for `request`, that the handler blocks forever). -/
def step (s : SessState) : Ev → Option SessState
  | Ev.request req => (processAction s req).map Prod.fst
  | Ev.consume ok =>
      match s.waiter, s.chanBuf with
      | WaiterStatus.waiting, some _ =>
          some { s with chanBuf := none
                        waiter := WaiterStatus.done
                        remoteApplyCalls := s.remoteApplyCalls + 1
                        pacersStarted := s.pacersStarted + (if ok then 1 else 0) }
      | _, _ => none
  | Ev.ctxExpire =>
      if s.ctxDone then none else some { s with ctxDone := true }
  | Ev.waiterTimeout =>
      match s.waiter, s.ctxDone with
      | WaiterStatus.waiting, true => some { s with waiter := WaiterStatus.done }
      | _, _ => none
  | Ev.waiterExit =>
      match s.waiter, s.inChannels with
      | WaiterStatus.done, true => some { s with inChannels := false }
      | _, _ => none
  | Ev.reaperFire =>
      if s.reaperFired then none
      else if s.inRegistry then
        some { s with transportClosed := true
                      inRegistry := false
                      removals := s.removals + 1
                      reaperFired := true }
      else
        some { s with reaperFired := true }

/-- The state right after `generateSDPOffer` returns: registered in both
maps, empty decision channel, waiter armed, transport open. -/
def initState : SessState :=
  { inRegistry := true
    inChannels := true
    chanBuf := none
    waiter := WaiterStatus.waiting
    remoteApplyCalls := 0
    pacersStarted := 0
    transportClosed := false
    reaperFired := false
    ctxDone := false
    removals := 0 }

/-- States reachable from `initState` by any interleaving of events. -/
inductive Reachable : SessState → Prop where
  | init : Reachable initState
  | next {s s' : SessState} (e : Ev) :
      Reachable s → step s e = some s' → Reachable s'

/-- Run a concrete event trace from a given state. -/
def runFrom (s : SessState) : List Ev → Option SessState
  | [] => some s
  | e :: evs =>
      match step s e with
      | some s' => runFrom s' evs
      | none => none

/-- Run a concrete event trace from the initial state. -/
def run (evs : List Ev) : Option SessState :=
  runFrom initState evs

/-- The inductive invariant of a session: the decision is consumed at most
once (and only after the waiter leaves `waiting`), at most one pacer is
started, the registry entry is present exactly while the transport is
open, and the call id is removed from the registry exactly once, when the
transport is closed. -/
def Inv (s : SessState) : Prop :=
  s.remoteApplyCalls ≤ 1 ∧
  s.pacersStarted ≤ s.remoteApplyCalls ∧
  (s.waiter = WaiterStatus.waiting → s.remoteApplyCalls = 0) ∧
  s.inRegistry = !s.transportClosed ∧
  s.removals = (if s.inRegistry then 0 else 1)

/-! ### Concrete requests and traces used by witnesses and counterexamples -/
/-- An `accept` decision carrying the nested `connection.webrtc.sdp` shape. -/
def acceptReq : ActionRequest :=
  { callID := "call-1"
    action := "accept"
    connection := [("webrtc", JVal.obj [("sdp", JVal.str "v=0 remote answer")])]
    session := [] }

/-- A `terminate` decision. -/
def terminateReq : ActionRequest :=
  { callID := "call-1", action := "terminate", connection := [], session := [] }

/-- A `reject` decision. -/
def rejectReq : ActionRequest :=
  { callID := "call-1", action := "reject", connection := [], session := [] }

/-- State after an accept was deposited, consumed (description applied,
pacer started) and a second late accept was deposited into the channel. -/
def doubleAcceptState : SessState :=
  { inRegistry := true
    inChannels := true
    chanBuf := some "v=0 remote answer"
    waiter := WaiterStatus.done
    remoteApplyCalls := 1
    pacersStarted := 1
    transportClosed := false
    reaperFired := false
    ctxDone := false
    removals := 0 }

/-- State of an accepted-then-streaming session (decision consumed, pacer
running, channel drained). -/
def streamingState : SessState :=
  { inRegistry := true
    inChannels := true
    chanBuf := none
    waiter := WaiterStatus.done
    remoteApplyCalls := 1
    pacersStarted := 1
    transportClosed := false
    reaperFired := false
    ctxDone := false
    removals := 0 }

/-- State right after a `terminate` decision was processed. -/
def terminatedState : SessState :=
  { inRegistry := false
    inChannels := true
    chanBuf := none
    waiter := WaiterStatus.waiting
    remoteApplyCalls := 0
    pacersStarted := 0
    transportClosed := true
    reaperFired := false
    ctxDone := false
    removals := 1 }

/-- State right after the reaper fired on an untouched session. -/
def reapedState : SessState :=
  { inRegistry := false
    inChannels := true
    chanBuf := none
    waiter := WaiterStatus.waiting
    remoteApplyCalls := 0
    pacersStarted := 0
    transportClosed := true
    reaperFired := true
    ctxDone := false
    removals := 1 }

/-! ### Answer flow: `generateSDPAnswer` and `processAnswer` -/
/-- A session description / offer pair (`Offer` in the source). -/
structure Offer where
  sdp : String
  type : String
deriving DecidableEq, Repr

/-- The create-answer request body (`AnswerRequest` in the source).
`sessionSdp` is `request.Session.SDP`; an absent remote description in the
JSON body unmarshals to the empty string. -/
structure AnswerRequest where
  callID : String
  to_ : String
  action : String
  sessionSdp : String
deriving DecidableEq, Repr

/-- Peer-connection handles are identified by a number. -/
abbrev PC := Nat

/-- The `callIDToOffer` registry: call id → peer connection. -/
abbrev Registry := List (String × PC)

/-- The `callIDToOffer[callID]` lookup. -/
def regLookup : Registry → String → Option PC
  | [], _ => none
  | (k, v) :: rest, key => if k = key then some v else regLookup rest key

/-- The assignment `callIDToOffer[callID] = pc`: Go map assignment overwrites an existing
binding and never fails. -/
def regInsert : Registry → String → PC → Registry
  | [], k, v => [(k, v)]
  | (k', v') :: rest, k, v =>
      if k' = k then (k, v) :: rest else (k', v') :: regInsert rest k v

/-- Outcomes of the external WebRTC transport adapter calls made by
`generateSDPAnswer`, in source order: `NewPeerConnection`,
`SetRemoteDescription` (may depend on the remote SDP given),
track creation and `AddTrack`, `CreateAnswer`, `SetLocalDescription`;
`localDesc` is the gathered local description on success. -/
structure TransportAdapter where
  createOk : Bool
  setRemoteOk : String → Bool
  addTrackOk : Bool
  createAnswerOk : Bool
  setLocalOk : Bool
  localDesc : Offer

/-- Embeds `generateSDPAnswer`: `none` in the first component means an error
return (surfaced as a 500 by `processAnswer`); on success the call id and
answer plus the registry after registration are returned.  The last
component records which peer connections were closed during the call: the
error paths after a successful `NewPeerConnection` close the new pc, and
no path closes any previously registered pc. -/
def generateSDPAnswer (A : TransportAdapter) (reg : Registry)
    (request : AnswerRequest) (uuid : String) (pcId : PC) :
    Option (String × Offer) × Registry × List PC :=
  if A.createOk = false then (none, reg, [])
  else if A.setRemoteOk request.sessionSdp = false then (none, reg, [pcId])
  else if A.addTrackOk = false then (none, reg, [pcId])
  else if A.createAnswerOk = false then (none, reg, [pcId])
  else if A.setLocalOk = false then (none, reg, [pcId])
  else
    let callID := if request.callID = "" then uuid else request.callID
    (some (callID, A.localDesc), regInsert reg callID pcId, [])

/-- The three response classes of `processAnswer`: the 400 "Invalid
action" validation error, the 500 "Error generating answer" server error,
and the success payload `{call_id, answer}`. -/
inductive AnswerResult where
  | validationError
  | serverError
  | okResp (callID : String) (answer : Offer)
deriving DecidableEq, Repr

/-- Embeds `processAnswer`: rejects any action other than "connect" with the 400
validation error before touching the transport; otherwise runs
`generateSDPAnswer` and maps a transport error to the 500 server error. -/
def processAnswer (A : TransportAdapter) (reg : Registry)
    (request : AnswerRequest) (uuid : String) (pcId : PC) :
    AnswerResult × Registry :=
  if request.action ≠ "connect" then (AnswerResult.validationError, reg)
  else
    match generateSDPAnswer A reg request uuid pcId with
    | (none, reg2, _) => (AnswerResult.serverError, reg2)
    | (some (cid, ans), reg2, _) => (AnswerResult.okResp cid ans, reg2)

/-- An adapter behaving like the pion transport on a healthy host: every
step succeeds except that setting an unparseable (empty) remote
description fails. -/
def pionLikeAdapter : TransportAdapter :=
  { createOk := true
    setRemoteOk := fun s => !(s == "")
    addTrackOk := true
    createAnswerOk := true
    setLocalOk := true
    localDesc := { sdp := "v=0 local answer", type := "answer" } }

/-! ### Offer flow: `createCallbackPayload` and `generateSDPOffer` -/
/-- The create-offer request body (`OfferRequest` in the source).
The Go field `From` is written `from_` (`from` is reserved here). -/
structure OfferRequest where
  to_ : String
  callbackURL : String
  callID : String
  from_ : String
deriving DecidableEq, Repr

/-- One call record inside the Event payload (`Call` in the source). -/
structure Call where
  id : String
  from_ : String
  to_ : String
  event : String
  timestamp : String
  direction : String
  connection : List (String × JVal)
  session : List (String × JVal)

/-- The struct `Metadata` in the source. -/
structure Metadata where
  displayPhoneNumber : String
  phoneNumberID : String

/-- The struct `Value` in the source; `contacts` is the loosely typed `any` field. -/
structure Value where
  messagingProduct : String
  calls : List Call
  metadata : Metadata
  contacts : JVal

/-- The struct `Change` in the source. -/
structure Change where
  value : Value
  field : String

/-- The struct `Entry` in the source. -/
structure Entry where
  id : String
  changes : List Change

/-- The outbound Event payload (`Event` in the source). -/
structure Event where
  object : String
  entry : List Entry

/-- Models `json.Marshal(map[string]string{"type": offer.Type, "sdp": offer.SDP})`
in `createCallbackPayload`: Go marshals map keys in sorted order ("sdp"
before "type"); value escaping is not modelled. -/
def marshalSDP (offer : Offer) : String :=
  "\x7b\"sdp\":\"" ++ offer.sdp ++ "\",\"type\":\"" ++ offer.type ++ "\"\x7d"

/-- Embeds `createCallbackPayload` from the source, with `time.Now().Unix()`
passed in as `nowUnix`. -/
def createCallbackPayload (request : OfferRequest) (offer : Offer)
    (callID : String) (nowUnix : Nat) : Event :=
  let connection : List (String × JVal) :=
    [("webrtc", JVal.obj [("sdp", JVal.str (marshalSDP offer))])]
  let session : List (String × JVal) :=
    [("sdp", JVal.str offer.sdp), ("sdp_type", JVal.str offer.type)]
  let call : Call :=
    { id := callID
      from_ := request.from_
      to_ := request.to_
      event := "connect"
      timestamp := toString nowUnix
      direction := "USER_INITIATED"
      connection := connection
      session := session }
  let metadata : Metadata :=
    { displayPhoneNumber := "919999999999", phoneNumberID := "00000000000000" }
  let contacts : JVal :=
    JVal.arr [JVal.obj [("profile", JVal.obj [("name", JVal.str "Gupshup Load")]),
                        ("wa_id", JVal.str "00000000000000")]]
  let value : Value :=
    { messagingProduct := "random"
      calls := [call]
      metadata := metadata
      contacts := contacts }
  let change : Change := { value := value, field := "calls" }
  let entry : Entry := { id := "00000000000000", changes := [change] }
  { object := "random_business_account", entry := [entry] }

/-- Outcomes of the external WebRTC transport adapter calls made by
`generateSDPOffer`, in source order: `NewPeerConnection`,
`NewTrackLocalStaticSample`, `AddTrack`, `CreateOffer`,
`SetLocalDescription`; `finalLocalDesc` is `pc.LocalDescription()` after
candidate gathering (`none` models the nil check failing). -/
structure OfferAdapter where
  createOk : Bool
  newTrackOk : Bool
  addTrackOk : Bool
  createOfferOk : Bool
  setLocalOk : Bool
  finalLocalDesc : Option Offer

/-- The synchronous effect of `generateSDPOffer`: derive the call id
(a fresh uuid when the request carries none), drive the adapter, and on
success register the new peer connection (overwriting any existing binding
for the id) and build the Event payload.  The first component is the
returned payload (`none` = error return), the second the registry after
the call, the third the peer connections closed during the call (error
paths after a successful `NewPeerConnection` close the new pc; no path
closes a previously registered pc). -/
def generateSDPOffer (A : OfferAdapter) (reg : Registry)
    (request : OfferRequest) (uuid : String) (pcId : PC) (nowUnix : Nat) :
    Option Event × Registry × List PC :=
  let callID := if request.callID = "" then uuid else request.callID
  if A.createOk = false then (none, reg, [])
  else if A.newTrackOk = false then (none, reg, [pcId])
  else if A.addTrackOk = false then (none, reg, [pcId])
  else if A.createOfferOk = false then (none, reg, [pcId])
  else if A.setLocalOk = false then (none, reg, [pcId])
  else
    match A.finalLocalDesc with
    | none => (none, reg, [pcId])
    | some finalOffer =>
        (some (createCallbackPayload request finalOffer callID nowUnix),
         regInsert reg callID pcId, [])

/-- The single call record of an Event payload, when the payload has the
one-entry/one-change/one-call shape `createCallbackPayload` produces. -/
def eventFirstCall (e : Event) : Option Call :=
  match e.entry with
  | [en] =>
      match en.changes with
      | [ch] =>
          match ch.value.calls with
          | [c] => some c
          | _ => none
      | _ => none
  | _ => none

/-- An offer-flow adapter on which every step succeeds. -/
def okOfferAdapter (finalOffer : Offer) : OfferAdapter :=
  { createOk := true
    newTrackOk := true
    addTrackOk := true
    createOfferOk := true
    setLocalOk := true
    finalLocalDesc := some finalOffer }

/-- The local offer used in concrete witnesses. -/
def offer0 : Offer := { sdp := "v=0 local offer", type := "offer" }

/-- A create-offer request with to/from but no call id. -/
def offerReq0 : OfferRequest :=
  { to_ := "X", callbackURL := "", callID := "", from_ := "Y" }


theorem runFrom_reachable {s s' : SessState} :
    ∀ evs : List Ev, Reachable s → runFrom s evs = some s' → Reachable s' := by
  intro evs
  induction evs generalizing s with
  | nil =>
      intro hs h
      simp only [runFrom, Option.some.injEq] at h
      exact h ▸ hs
  | cons e evs ih =>
      intro hs h
      simp only [runFrom] at h
      cases hst : step s e with
      | none => rw [hst] at h; exact absurd h (by simp)
      | some s1 =>
          rw [hst] at h
          exact ih (Reachable.next e hs hst) h

theorem run_reachable {s : SessState} (evs : List Ev)
    (h : run evs = some s) : Reachable s :=
  runFrom_reachable evs Reachable.init h

theorem inv_init : Inv initState := by
  simp [Inv, initState]

theorem inv_step {s s' : SessState} (e : Ev) (hI : Inv s)
    (h : step s e = some s') : Inv s' := by
  obtain ⟨h1, h2, h3, h4, h5⟩ := hI
  cases e with
  | request req =>
      simp only [step, processAction] at h
      by_cases hreg : s.inRegistry = false
      · simp [hreg] at h
        try subst h
        refine ⟨?_, ?_, ?_, ?_, ?_⟩ <;> simp_all
      · have hreg' : s.inRegistry = true := by
          simpa using hreg
        by_cases hclose : req.action ∈ validCloseActions
        · simp [hreg, hclose] at h
          try subst h
          refine ⟨?_, ?_, ?_, ?_, ?_⟩ <;> simp_all
        · by_cases hacc : req.action = "accept"
          · cases hsdp : extractAcceptSDP req with
            | none =>
                simp [hreg, hclose, hacc, hsdp, validCloseActions] at h
                try subst h
                refine ⟨?_, ?_, ?_, ?_, ?_⟩ <;> simp_all
            | some sdp =>
                by_cases hch : s.inChannels
                · cases hbuf : s.chanBuf with
                  | none =>
                      simp [hreg, hclose, hacc, hsdp, hch, hbuf,
                        validCloseActions] at h
                      try subst h
                      refine ⟨?_, ?_, ?_, ?_, ?_⟩ <;> simp_all
                  | some old =>
                      simp [hreg, hclose, hacc, hsdp, hch, hbuf,
                        validCloseActions] at h
                · simp [hreg, hclose, hacc, hsdp, hch,
                    validCloseActions] at h
                  try subst h
                  refine ⟨?_, ?_, ?_, ?_, ?_⟩ <;> simp_all
          · simp [hreg, hclose, hacc] at h
            try subst h
            refine ⟨?_, ?_, ?_, ?_, ?_⟩ <;> simp_all
  | consume ok =>
      simp only [step] at h
      cases hw : s.waiter with
      | waiting =>
          cases hbuf : s.chanBuf with
          | none => simp [hw, hbuf] at h
          | some sdp =>
              simp [hw, hbuf] at h
              try subst h
              have happ : s.remoteApplyCalls = 0 := h3 hw
              have hpac : s.pacersStarted = 0 := by
                omega
              refine ⟨?_, ?_, ?_, ?_, ?_⟩
              · simp [happ]
              · simp only [happ, hpac]
                cases ok <;> simp
              · simp
              · simpa using h4
              · simpa using h5
      | done => simp [hw] at h
  | ctxExpire =>
      simp only [step] at h
      by_cases hc : s.ctxDone
      · simp [hc] at h
      · simp [hc] at h
        try subst h
        refine ⟨?_, ?_, ?_, ?_, ?_⟩ <;> simp_all
  | waiterTimeout =>
      simp only [step] at h
      cases hw : s.waiter with
      | waiting =>
          cases hc : s.ctxDone with
          | false => simp [hw, hc] at h
          | true =>
              simp [hw, hc] at h
              try subst h
              refine ⟨?_, ?_, ?_, ?_, ?_⟩ <;> simp_all
      | done => simp [hw] at h
  | waiterExit =>
      simp only [step] at h
      cases hw : s.waiter with
      | waiting => simp [hw] at h
      | done =>
          cases hch : s.inChannels with
          | false => simp [hw, hch] at h
          | true =>
              simp [hw, hch] at h
              try subst h
              refine ⟨?_, ?_, ?_, ?_, ?_⟩ <;> simp_all
  | reaperFire =>
      simp only [step] at h
      by_cases hr : s.reaperFired
      · simp [hr] at h
      · by_cases hreg : s.inRegistry
        · simp [hr, hreg] at h
          try subst h
          refine ⟨?_, ?_, ?_, ?_, ?_⟩ <;> simp_all
        · simp [hr, hreg] at h
          try subst h
          refine ⟨?_, ?_, ?_, ?_, ?_⟩ <;> simp_all

theorem reachable_inv {s : SessState} (h : Reachable s) : Inv s := by
  induction h with
  | init => exact inv_init
  | next e _ hstep ih => exact inv_step e ih hstep

/-! ### C1 -/
/-- C1: for every Offer-flow session, at most one decision is ever
consumed.  In every reachable interleaving — including two concurrent
`accept` deliveries for the same call id — the remote description is
applied to the transport at most once and at most one media pacer
(`streamAudio`) is started for the session. -/
theorem claim1_decision_consumed_at_most_once (s : SessState)
    (h : Reachable s) :
    s.remoteApplyCalls ≤ 1 ∧ s.pacersStarted ≤ 1 := by
  obtain ⟨h1, h2, _, _, _⟩ := reachable_inv h
  exact ⟨h1, le_trans h2 h1⟩

theorem claim1_decision_consumed_at_most_once_witness :
    doubleAcceptState.remoteApplyCalls ≤ 1 ∧ doubleAcceptState.pacersStarted ≤ 1 :=
  claim1_decision_consumed_at_most_once doubleAcceptState
    (run_reachable [Ev.request acceptReq, Ev.consume true, Ev.request acceptReq]
      (by decide))

/-! ### C2 -/
/-- C2: at every reachable state the session's call id is in the registry
iff its transport has not been closed; every step that closes the
transport removes the registry entry in the same step and vice versa; and
a repeated close/removal attempt is a safe no-op (the state is returned
unchanged with the soft status). -/
theorem claim2_registry_iff_transport_open (s : SessState) (h : Reachable s) :
    (s.inRegistry = true ↔ s.transportClosed = false)
    ∧ (∀ e s', step s e = some s' →
        ((s.transportClosed = false ∧ s'.transportClosed = true) ↔
         (s.inRegistry = true ∧ s'.inRegistry = false)))
    ∧ (s.inRegistry = false →
        ∀ req, processAction s req = some (s, Response.softNoSession)) := by
  obtain ⟨_, _, _, h4, _⟩ := reachable_inv h
  refine ⟨?_, ?_, ?_⟩
  · rw [h4]
    simp
  · intro e s' hstep
    obtain ⟨_, _, _, h4', _⟩ := inv_step e (reachable_inv h) hstep
    rw [h4, h4']
    simp
  · intro hreg req
    simp [processAction, hreg, validCloseActions]

theorem claim2_registry_iff_transport_open_witness :
    (reapedState.inRegistry = true ↔ reapedState.transportClosed = false)
    ∧ processAction reapedState terminateReq
        = some (reapedState, Response.softNoSession) :=
  ⟨(claim2_registry_iff_transport_open reapedState
      (run_reachable [Ev.reaperFire] (by decide))).1,
   (claim2_registry_iff_transport_open reapedState
      (run_reachable [Ev.reaperFire] (by decide))).2.2 rfl terminateReq⟩

/-! ### C3 -/
/-- C3 counterexample: run an accept to consumption (the pacer starts),
then let the reaper fire.  The accepted-then-streaming session is still in
the registry — it never "left the Registry" — and the reaper's fire is NOT
a no-op: it closes the transport and removes the entry. -/
theorem claim3_reaper_fires_on_streaming_session :
    run [Ev.request acceptReq, Ev.consume true] = some streamingState
    ∧ streamingState.pacersStarted = 1
    ∧ streamingState.inRegistry = true
    ∧ step streamingState Ev.reaperFire =
        some { streamingState with
               inRegistry := false
               transportClosed := true
               reaperFired := true
               removals := 1 } := by
  decide

/-- C3 (amended): at most one terminal registry removal occurs per session
— the first of an explicit `terminate`/`reject`/`hangup` or the reaper's
fire wins — and once the session has left the registry, every further
decision request is a soft no-op and a reaper fire only marks its own
bookkeeping flag.  Accept-then-streaming, however, does not remove the
session, so a reaper fire on an accepted-then-streaming session closes the
transport and removes the entry rather than being a no-op. -/
theorem claim3_one_terminal_removal (s : SessState) (h : Reachable s) :
    s.removals ≤ 1
    ∧ (s.inRegistry = false →
        (∀ req, processAction s req = some (s, Response.softNoSession))
        ∧ (s.reaperFired = false →
            step s Ev.reaperFire = some { s with reaperFired := true })) := by
  obtain ⟨_, _, _, _, h5⟩ := reachable_inv h
  refine ⟨?_, ?_⟩
  · rw [h5]
    split <;> omega
  · intro hreg
    refine ⟨?_, ?_⟩
    · intro req
      simp [processAction, hreg, validCloseActions]
    · intro hrf
      simp [step, hreg, hrf]

theorem claim3_one_terminal_removal_witness :
    terminatedState.removals ≤ 1
    ∧ processAction terminatedState rejectReq
        = some (terminatedState, Response.softNoSession)
    ∧ step terminatedState Ev.reaperFire
        = some { terminatedState with reaperFired := true } :=
  ⟨(claim3_one_terminal_removal terminatedState
      (run_reachable [Ev.request terminateReq] (by decide))).1,
   ((claim3_one_terminal_removal terminatedState
      (run_reachable [Ev.request terminateReq] (by decide))).2 rfl).1 rejectReq,
   ((claim3_one_terminal_removal terminatedState
      (run_reachable [Ev.request terminateReq] (by decide))).2 rfl).2 rfl⟩

/-! ### C4 -/
/-- C4 counterexample: after the first accept has been consumed
(`remoteApplyCalls = 1`) and a second late accept has already been dropped
into the capacity-one channel, a further accept request for the same call
id produces no result at all: the channel send blocks the dispatcher
forever (the single-shot waiter never drains the channel again), so the
dispatcher does not return a response to its caller. -/
theorem claim4_third_accept_blocks :
    run [Ev.request acceptReq, Ev.consume true, Ev.request acceptReq]
      = some doubleAcceptState
    ∧ doubleAcceptState.remoteApplyCalls = 1
    ∧ processAction doubleAcceptState acceptReq = none := by
  decide

/-- C4 (amended): a late `accept` after the waiter has finished blocks the
dispatcher exactly when the session is still registered, the request
yields an SDP, the decision channel is still in `actionChannels` and the
channel already holds an undrained decision; in every other case the
dispatcher returns a response, and any returned response leaves the
consumed-decision counts and the finished waiter untouched — the late
decision is silently dropped, never re-applied. -/
theorem claim4_late_accept_dropped_or_blocks (s : SessState)
    (h : s.waiter = WaiterStatus.done) (req : ActionRequest)
    (ha : req.action = "accept") :
    (processAction s req = none ↔
      (s.inRegistry = true ∧ (extractAcceptSDP req).isSome = true
        ∧ s.inChannels = true ∧ s.chanBuf.isSome = true))
    ∧ (∀ p, processAction s req = some p →
        p.1.remoteApplyCalls = s.remoteApplyCalls
        ∧ p.1.pacersStarted = s.pacersStarted
        ∧ p.1.waiter = WaiterStatus.done) := by
  have hnc : ¬ req.action ∈ validCloseActions := by
    simp [ha, validCloseActions]
  refine ⟨?_, ?_⟩
  · by_cases hreg : s.inRegistry = false
    · simp [processAction, hreg, validCloseActions]
    · have hreg' : s.inRegistry = true := by
        simpa using hreg
      cases hsdp : extractAcceptSDP req with
      | none => simp [processAction, hreg, hnc, ha, hsdp, validCloseActions]
      | some sdp =>
          cases hch : s.inChannels with
          | false => simp [processAction, hreg, hreg', hnc, ha, hsdp, hch, validCloseActions]
          | true =>
              cases hbuf : s.chanBuf with
              | none => simp [processAction, hreg, hreg', hnc, ha, hsdp, hch, hbuf, validCloseActions]
              | some old =>
                  simp [processAction, hreg, hreg', hnc, ha, hsdp, hch, hbuf, validCloseActions]
  · intro p hp
    by_cases hreg : s.inRegistry = false
    · simp [processAction, hreg, validCloseActions] at hp
      try subst hp
      simp [h]
    · cases hsdp : extractAcceptSDP req with
      | none =>
          simp [processAction, hreg, hnc, ha, hsdp, validCloseActions] at hp
          try subst hp
          simp [h]
      | some sdp =>
          cases hch : s.inChannels with
          | false =>
              simp [processAction, hreg, hnc, ha, hsdp, hch, validCloseActions] at hp
              try subst hp
              simp [h]
          | true =>
              cases hbuf : s.chanBuf with
              | none =>
                  simp [processAction, hreg, hnc, ha, hsdp, hch, hbuf, validCloseActions] at hp
                  try subst hp
                  simp [h]
              | some old =>
                  simp [processAction, hreg, hnc, ha, hsdp, hch, hbuf, validCloseActions] at hp

theorem claim4_late_accept_dropped_or_blocks_witness :
    processAction streamingState acceptReq = none ↔
      (streamingState.inRegistry = true
        ∧ (extractAcceptSDP acceptReq).isSome = true
        ∧ streamingState.inChannels = true
        ∧ streamingState.chanBuf.isSome = true) :=
  (claim4_late_accept_dropped_or_blocks streamingState rfl acceptReq rfl).1

/-! ### C6 -/
/-- C6: for every decision request whose call id is not in the registry —
whatever the action — the dispatcher returns the soft "no corresponding
offer for this call_id or already closed" status, unchanged state, not an
error; in particular a second `terminate` on an already-removed call id
gets the soft already-closed status. -/
theorem claim6_unknown_call_id_soft_status (s : SessState)
    (h : s.inRegistry = false) (req : ActionRequest) :
    processAction s req = some (s, Response.softNoSession) := by
  simp [processAction, h, validCloseActions]

theorem claim6_unknown_call_id_soft_status_witness :
    processAction terminatedState terminateReq
      = some (terminatedState, Response.softNoSession) :=
  claim6_unknown_call_id_soft_status terminatedState rfl terminateReq

/-! ### C7 -/
/-- C7: for an `accept` decision on a live session, the dispatcher takes
the remote description from the nested `connection.webrtc.sdp` field when
that shape yields a string, otherwise from the flat `session.sdp` field;
when neither yields a description it fails with the 400 validation error;
otherwise the decision is delivered into the session's decision channel. -/
theorem claim7_accept_extraction_and_delivery (s : SessState)
    (req : ActionRequest) (hreg : s.inRegistry = true)
    (hch : s.inChannels = true) (hbuf : s.chanBuf = none)
    (ha : req.action = "accept") :
    (∀ sdp, connectionWebrtcSdp req.connection = some sdp →
        processAction s req
          = some ({ s with chanBuf := some sdp }, Response.success))
    ∧ (connectionWebrtcSdp req.connection = none →
        ∀ sdp, sessionSdp req.session = some sdp →
          processAction s req
            = some ({ s with chanBuf := some sdp }, Response.success))
    ∧ (connectionWebrtcSdp req.connection = none →
        sessionSdp req.session = none →
          processAction s req = some (s, Response.validationError)) := by
  have hnc : ¬ req.action ∈ validCloseActions := by
    simp [ha, validCloseActions]
  refine ⟨?_, ?_, ?_⟩
  · intro sdp hconn
    simp [processAction, extractAcceptSDP, hreg, hnc, ha, hconn, hch, hbuf, validCloseActions]
  · intro hconn sdp hsess
    simp [processAction, extractAcceptSDP, hreg, hnc, ha, hconn, hsess, hch, hbuf, validCloseActions]
  · intro hconn hsess
    simp [processAction, extractAcceptSDP, hreg, hnc, ha, hconn, hsess, validCloseActions]

theorem claim7_accept_extraction_and_delivery_witness :
    processAction initState acceptReq
      = some ({ initState with chanBuf := some "v=0 remote answer" },
              Response.success) :=
  (claim7_accept_extraction_and_delivery initState acceptReq rfl rfl rfl
    rfl).1 "v=0 remote answer" rfl

/-! ### C5 -/
/-- C5 counterexample: a create-answer request with action "connect" and
an ABSENT remote offer description (empty `session.sdp`) does not fail
with a validation error, contrary to the claim: the missing description is
never validated and surfaces as the 500 transport/server error. -/
theorem claim5_missing_description_not_validation_error :
    processAnswer pionLikeAdapter []
      { callID := "c-1", to_ := "15550000000", action := "connect",
        sessionSdp := "" } "u-1" 7
      = (AnswerResult.serverError, []) := by
  decide

/-- C5 (amended): `processAnswer` fails with a validation error exactly
when the request's action field is not "connect"; in particular a request
with action "connect" never yields a validation error, whether or not a
remote description is present — an absent description surfaces through the
transport as a server-side error instead. -/
theorem claim5_validation_error_iff_action_not_connect
    (A : TransportAdapter) (reg : Registry) (request : AnswerRequest)
    (uuid : String) (pcId : PC) :
    (processAnswer A reg request uuid pcId).1 = AnswerResult.validationError
      ↔ request.action ≠ "connect" := by
  by_cases ha : request.action = "connect"
  · rcases hg : generateSDPAnswer A reg request uuid pcId with ⟨o, reg2, cl⟩
    cases o with
    | none => simp [processAnswer, ha, hg]
    | some p =>
        rcases p with ⟨cid, ans⟩
        simp [processAnswer, ha, hg]
  · simp [processAnswer, ha]

/-- Inserting a binding makes it the one found for its key. -/
theorem regLookup_regInsert (reg : Registry) (k : String) (v : PC) :
    regLookup (regInsert reg k v) k = some v := by
  induction reg with
  | nil => simp [regInsert, regLookup]
  | cons hd tl ih =>
      rcases hd with ⟨k', v'⟩
      by_cases hk : k' = k
      · simp [regInsert, hk, regLookup]
      · simp [regInsert, hk, regLookup, ih]

/-- Characterization of a successful `generateSDPOffer`: every adapter
step succeeded, the payload is `createCallbackPayload` at the derived call
id, the registry gained the new pc at that id, and nothing was closed. -/
theorem generateSDPOffer_success {A : OfferAdapter} {reg : Registry}
    {request : OfferRequest} {uuid : String} {pcId : PC} {now : Nat}
    {ev : Event} {reg2 : Registry} {cl : List PC}
    (hsucc : generateSDPOffer A reg request uuid pcId now
      = (some ev, reg2, cl)) :
    ∃ o, A.finalLocalDesc = some o
      ∧ ev = createCallbackPayload request o
          (if request.callID = "" then uuid else request.callID) now
      ∧ reg2 = regInsert reg
          (if request.callID = "" then uuid else request.callID) pcId
      ∧ cl = [] := by
  unfold generateSDPOffer at hsucc
  by_cases h1 : A.createOk = false
  · simp [h1] at hsucc
  · by_cases h2 : A.newTrackOk = false
    · simp [h1, h2] at hsucc
    · by_cases h3 : A.addTrackOk = false
      · simp [h1, h2, h3] at hsucc
      · by_cases h4 : A.createOfferOk = false
        · simp [h1, h2, h3, h4] at hsucc
        · by_cases h5 : A.setLocalOk = false
          · simp [h1, h2, h3, h4, h5] at hsucc
          · cases hfin : A.finalLocalDesc with
            | none => simp [h1, h2, h3, h4, h5, hfin] at hsucc
            | some o =>
                simp [h1, h2, h3, h4, h5, hfin] at hsucc
                exact ⟨o, rfl, hsucc.1.symm, hsucc.2.1.symm, hsucc.2.2⟩

/-! ### C9 -/
/-- C9: for a create-offer request carrying to/from but no call id, on
success the Event payload's call record carries the generated (uuid) call
id — non-empty whenever the uuid is — and a non-empty local description in
its session field, and the registry resulting from the call contains that
call id, bound to the new peer connection. -/
theorem claim9_create_offer_payload_and_registry (A : OfferAdapter)
    (reg : Registry) (request : OfferRequest) (uuid : String) (pcId : PC)
    (now : Nat) (ev : Event) (reg2 : Registry) (cl : List PC) (o : Offer)
    (hreq : request.callID = "")
    (hsucc : generateSDPOffer A reg request uuid pcId now
      = (some ev, reg2, cl))
    (huuid : uuid ≠ "")
    (ho : A.finalLocalDesc = some o) (hosdp : o.sdp ≠ "") :
    (eventFirstCall ev).map Call.id = some uuid
    ∧ uuid ≠ ""
    ∧ (eventFirstCall ev).bind (fun c => sessionSdp c.session)
        = some o.sdp
    ∧ o.sdp ≠ ""
    ∧ regLookup reg2 uuid = some pcId := by
  obtain ⟨o2, ho2, hev, hreg2, _⟩ := generateSDPOffer_success hsucc
  rw [ho] at ho2
  injection ho2 with ho2
  subst ho2
  subst hev
  subst hreg2
  rw [hreq]
  refine ⟨?_, huuid, ?_, hosdp, ?_⟩
  · simp [createCallbackPayload, eventFirstCall]
  · simp [createCallbackPayload, eventFirstCall, sessionSdp, jlookup]
  · simp [regLookup_regInsert]

theorem claim9_create_offer_payload_and_registry_witness :
    (eventFirstCall (createCallbackPayload offerReq0 offer0 "u-123" 0)).map
        Call.id = some "u-123"
    ∧ "u-123" ≠ ""
    ∧ (eventFirstCall (createCallbackPayload offerReq0 offer0 "u-123" 0)).bind
        (fun c => sessionSdp c.session) = some offer0.sdp
    ∧ offer0.sdp ≠ ""
    ∧ regLookup (regInsert [] "u-123" 7) "u-123" = some 7 :=
  claim9_create_offer_payload_and_registry (okOfferAdapter offer0) []
    offerReq0 "u-123" 7 0 (createCallbackPayload offerReq0 offer0 "u-123" 0)
    (regInsert [] "u-123" 7) [] offer0 rfl rfl (by decide) rfl (by decide)

/-! ### C10 -/
/-- C10: when `generateSDPOffer` or `generateSDPAnswer` is invoked with a
caller-supplied call id already present in the registry, registration
never fails: the successful call returns its payload, the new peer
connection overwrites the existing binding for that id, and no peer
connection is closed during the call — in particular the previously
registered transport is neither closed nor otherwise torn down. -/
theorem claim10_duplicate_call_id_overwrites (A : OfferAdapter)
    (B : TransportAdapter) (reg : Registry) (k : String) (oldPc : PC)
    (hold : regLookup reg k = some oldPc)
    (request : OfferRequest) (hk : request.callID = k)
    (areq : AnswerRequest) (hak : areq.callID = k) (hkne : k ≠ "")
    (uuid : String) (newPc : PC) (now : Nat) (o : Offer)
    (ho : A.finalLocalDesc = some o)
    (h1 : A.createOk = true) (h2 : A.newTrackOk = true)
    (h3 : A.addTrackOk = true) (h4 : A.createOfferOk = true)
    (h5 : A.setLocalOk = true)
    (b1 : B.createOk = true) (b2 : B.setRemoteOk areq.sessionSdp = true)
    (b3 : B.addTrackOk = true) (b4 : B.createAnswerOk = true)
    (b5 : B.setLocalOk = true) :
    generateSDPOffer A reg request uuid newPc now
      = (some (createCallbackPayload request o k now),
         regInsert reg k newPc, [])
    ∧ generateSDPAnswer B reg areq uuid newPc
      = (some (k, B.localDesc), regInsert reg k newPc, [])
    ∧ regLookup (regInsert reg k newPc) k = some newPc := by
  refine ⟨?_, ?_, regLookup_regInsert reg k newPc⟩
  · simp [generateSDPOffer, h1, h2, h3, h4, h5, ho, hk, hkne]
  · simp [generateSDPAnswer, b1, b2, b3, b4, b5, hak, hkne]

theorem claim10_duplicate_call_id_overwrites_witness :
    generateSDPOffer (okOfferAdapter offer0) [("dup", 3)]
      { to_ := "X", callbackURL := "", callID := "dup", from_ := "Y" }
      "u-9" 8 0
      = (some (createCallbackPayload
          { to_ := "X", callbackURL := "", callID := "dup", from_ := "Y" }
          offer0 "dup" 0), regInsert [("dup", 3)] "dup" 8, [])
    ∧ generateSDPAnswer pionLikeAdapter [("dup", 3)]
        { callID := "dup", to_ := "X", action := "connect",
          sessionSdp := "v=0 remote offer" } "u-9" 8
      = (some ("dup", pionLikeAdapter.localDesc),
         regInsert [("dup", 3)] "dup" 8, [])
    ∧ regLookup (regInsert [("dup", 3)] "dup" 8) "dup" = some 8 :=
  claim10_duplicate_call_id_overwrites (okOfferAdapter offer0)
    pionLikeAdapter [("dup", 3)] "dup" 3 rfl
    { to_ := "X", callbackURL := "", callID := "dup", from_ := "Y" } rfl
    { callID := "dup", to_ := "X", action := "connect",
      sessionSdp := "v=0 remote offer" } rfl (by decide)
    "u-9" 8 0 offer0 rfl rfl rfl rfl rfl rfl rfl (by decide) rfl rfl rfl

end WaLoad
